import Mathlib

/-!
Shallow embedding of the turn-routing and clarification-resumption protocol of
the ThesisMate multi-agent assistant.

The embedded code lives in:
  * src/orchestrator/orchestrator.py  (supervisor graph, routing, merge)
  * src/agents/topic_scout.py         (topic discovery handler)
  * src/agents/research.py            (research handler capability check)
  * src/agents/structure.py           (structure handler gating)
  * src/agents/writing.py             (drafting handler gating)
  * src/models/models.py              (pydantic data model)

External collaborators (the OpenRouter chat-completion service, the JSON
parser applied to its output, the regex library, disk storage) are modelled as
explicit oracle parameters: a `ChatResult` is either the raised exception of
`chat_completion` or its returned text, and the JSON / regex extraction
results are passed in as function parameters.  All control flow that inspects
those results is translated from the Python source.
-/

namespace ThesisMate

/-! ## Python string primitives -/

/-- Python `str.strip()` (whitespace at both ends). -/
def pyStrip (s : String) : String :=
  ⟨((s.data.dropWhile Char.isWhitespace).reverse.dropWhile Char.isWhitespace).reverse⟩

/-- Python `str.upper()` (ASCII case mapping, as used on classifier replies). -/
def pyUpper (s : String) : String := ⟨s.data.map Char.toUpper⟩

/-- Python `str.lower()`. -/
def pyLower (s : String) : String := ⟨s.data.map Char.toLower⟩

/-- Substring search helper: does `needle` occur in `hay` (as a contiguous run)? -/
def containsAux (needle : List Char) : List Char → Bool
  | [] => needle.isEmpty
  | c :: t => needle.isPrefixOf (c :: t) || containsAux needle t

/-- Python `needle in hay` on strings (substring test). -/
def strContains (hay needle : String) : Bool := containsAux needle.data hay.data

/-- Python truthiness of an `Optional[str]`: `None` and `""` are falsy. -/
def optStr (o : Option String) : Bool := !(o.getD "" == "")

/-- Python `a or b` for an optional string `a` with default `b`. -/
def orDefault (o : Option String) (d : String) : String :=
  if optStr o then o.getD "" else d

/-- Python `str.title()`: uppercase a letter not preceded by a letter, lowercase the rest. -/
def pyTitle (s : String) : String :=
  ⟨(s.data.foldl (fun (acc : List Char × Bool) c =>
      ((if acc.2 then c.toLower else c.toUpper) :: acc.1, c.isAlpha)) ([], false)).1.reverse⟩

/-! ## Chat transcript and external-call outcomes -/

/-- A LangChain message: `HumanMessage` or `AIMessage` with its content. -/
inductive Msg
  | human (content : String)
  | ai (content : String)
deriving DecidableEq, Repr

def Msg.content : Msg → String
  | .human c => c
  | .ai c => c

def Msg.isHuman : Msg → Bool
  | .human _ => true
  | .ai _ => false

/-- Outcome of one `OpenRouterClient.chat_completion` call: the call either
raises (`err` carries the exception text) or returns the reply text. -/
inductive ChatResult
  | err (e : String)
  | ok (text : String)
deriving DecidableEq, Repr

/-! ## Data model (src/models/models.py) -/

structure OutlineSection where
  title : String
deriving DecidableEq, Repr

structure OutlineChapter where
  title : String
  sections : List OutlineSection := []
deriving DecidableEq, Repr

structure ThesisOutline where
  title : String
  chapters : List OutlineChapter := []
deriving DecidableEq, Repr

/-- `UserContext` restricted to the fields the routing protocol and the
embedded handlers read or write.  `constraints`, `research_summaries`,
`writing_style` and `guardrails` are never inspected by the embedded control
flow and are omitted. -/
structure UserContext where
  field : Option String := none
  interests : List String := []
  background : Option String := none
  working_title : Option String := none
  latest_outline : Option ThesisOutline := none
  pending_agent : Option String := none
  pending_request : Option String := none
  enriched_input : Option String := none
deriving DecidableEq, Repr

inductive ActionType
  | askUser
  | callAgent
  | presentResults
  | collaborate
deriving DecidableEq, Repr

structure AgentInstruction where
  requesting_agent : String
  action_type : ActionType
  target : String
  message : String
  reasoning : String
deriving DecidableEq, Repr

structure AgentCapabilityAssessment where
  can_handle : Bool
  confidence : ℚ
  missing_info : List String := []
  reasoning : String
  suggested_questions : List String := []
deriving DecidableEq, Repr

/-- `AgentResponse` restricted to the fields the orchestrator inspects; the
opaque `result` artifact is never read by the routing protocol and is
omitted. -/
structure AgentResponse where
  success : Bool
  agent_name : String
  instructions : Option (List AgentInstruction) := none
  user_message : Option String := none
  capability_assessment : Option AgentCapabilityAssessment := none
  updated_context : Option UserContext := none
deriving DecidableEq, Repr

/-- Python truthiness of `response.instructions` (`None` and `[]` are falsy). -/
def instrTruthy (o : Option (List AgentInstruction)) : Bool :=
  match o with
  | none => false
  | some l => !l.isEmpty

/-! ## Topic Scout handler (src/agents/topic_scout.py) -/

/-- `TopicScoutAgent.can_handle_request`: a YES/NO question to the classifier.
`chat` is the outcome of the `chat_completion` call; the surrounding
`try/except` maps a raised exception to the generous low-confidence accept. -/
def TopicScoutAgent.canHandleRequest (chat : ChatResult) : AgentCapabilityAssessment :=
  match chat with
  | .ok response =>
      if !(response == "") && strContains (pyUpper response) "YES" then
        { can_handle := true, confidence := 9/10, missing_info := [],
          reasoning := "This is a topic-related request I can handle",
          suggested_questions := [] }
      else if !(response == "") && strContains (pyUpper response) "NO" then
        { can_handle := false, confidence := 9/10, missing_info := [],
          reasoning := pyStrip response, suggested_questions := [] }
      else
        { can_handle := true, confidence := 7/10, missing_info := [],
          reasoning := "Assuming this is topic-related", suggested_questions := [] }
  | .err e =>
      { can_handle := true, confidence := 6/10, missing_info := [],
        reasoning := "Error in assessment but trying to help: " ++ e,
        suggested_questions := [] }

/-- Parsed output of the context-extraction LLM call in
`TopicScoutAgent._update_context_from_input` (the JSON object
`{"field": ..., "interests": ...}`). -/
structure ExtractedInfo where
  field : Option String := none
  interests : Option (List String) := none
deriving DecidableEq, Repr

/-- `TopicScoutAgent._update_context_from_input`.  `extracted` is the outcome
of the LLM call followed by `json.loads`: `none` covers a failed call, an
empty reply and a `JSONDecodeError`, all of which return the context
unchanged.  On a successful parse the field/interest merge is translated from
the source; when something new was extracted the source constructs a fresh
`UserContext(field, interests, background, constraints)`, dropping all other
fields. -/
def TopicScoutAgent.updateContextFromInput (extracted : Option ExtractedInfo)
    (context : UserContext) : UserContext :=
  match extracted with
  | none => context
  | some ex =>
      let new_field : Option String := if optStr ex.field then ex.field else context.field
      let new_interests : List String :=
        match ex.interests with
        | some l =>
            if !l.isEmpty then
              if !context.interests.isEmpty then
                context.interests ++ l.filter (fun i => !context.interests.contains i)
              else l
            else context.interests
        | none => context.interests
      if new_field ≠ context.field ∨ new_interests ≠ context.interests then
        { field := new_field, interests := new_interests, background := context.background }
      else context

/-- `TopicScoutAgent._has_enough_info`: `bool(context.field and context.interests)`. -/
def TopicScoutAgent.hasEnoughInfo (context : UserContext) : Bool :=
  optStr context.field && !context.interests.isEmpty

/-- `TopicScoutAgent._get_next_question`. -/
def TopicScoutAgent.getNextQuestion (context : UserContext) : String :=
  if !optStr context.field then
    "What field are you studying? (e.g., Computer Science, Biology, Psychology, etc.)"
  else if context.interests.isEmpty then
    "What specific areas within " ++ context.field.getD "" ++ " interest you most?"
  else
    "Could you tell me more about what kind of topics you\x27re looking for?"

structure TopicSuggestion where
  title : String
  description : String := ""
  why_relevant : String := ""
deriving DecidableEq, Repr

/-- `TopicScoutAgent._format_topics_for_user` (without the research-validation
block, which is `None` for the modelled turns). -/
def TopicScoutAgent.formatTopicsForUser (topics : List TopicSuggestion) : String :=
  if topics.isEmpty then "I couldn\x27t generate any suitable topics."
  else
    let body := String.join (topics.enum.map (fun p =>
      "**" ++ toString (p.1 + 1) ++ ". " ++ p.2.title ++ "**\n" ++ p.2.description ++ "\n"
        ++ (if !(p.2.why_relevant == "") then "💡 Why relevant: " ++ p.2.why_relevant ++ "\n" else "")
        ++ "\n"))
    "I found " ++ toString topics.length ++ " promising thesis topics for you:\n\n"
      ++ body ++ "Would you like me to help you explore any of these topics further?"

/-- The external-call outcomes one `TopicScoutAgent.process_request` run can
observe: the context-extraction parse, the capability-check chat call, and the
final list of generated (and possibly research-validated) topics.  Topic
generation catches its own exceptions and returns `[]` on any failure. -/
structure TopicScoutLLM where
  extracted : Option ExtractedInfo := none
  assess : ChatResult := .err ""
  topics : List TopicSuggestion := []
deriving Repr

/-- `TopicScoutAgent.process_request`.  `exc` models an exception escaping the
body and being caught by the outer `try/except` (`some e` carries `str(e)`). -/
def TopicScoutAgent.processRequest (exc : Option String) (llm : TopicScoutLLM)
    (_user_input : String) (context : UserContext) : AgentResponse :=
  match exc with
  | some e =>
      { success := false, agent_name := "topic_scout",
        user_message := some ("I encountered an error: " ++ e) }
  | none =>
      let updated := TopicScoutAgent.updateContextFromInput llm.extracted context
      let assessment := TopicScoutAgent.canHandleRequest llm.assess
      if !assessment.can_handle then
        { success := false, agent_name := "topic_scout",
          capability_assessment := some assessment,
          user_message := some ("I don\x27t think I can help with this request. "
            ++ assessment.reasoning) }
      else if !TopicScoutAgent.hasEnoughInfo updated then
        let question := TopicScoutAgent.getNextQuestion updated
        let instruction : AgentInstruction :=
          { requesting_agent := "topic_scout", action_type := .askUser,
            target := "user", message := question,
            reasoning := "Need this information to generate relevant topics" }
        { success := false, agent_name := "topic_scout",
          instructions := some [instruction],
          user_message := some question,
          updated_context := some updated }
      else if llm.topics.isEmpty then
        { success := false, agent_name := "topic_scout",
          user_message := some ("I couldn\x27t generate suitable topics. "
            ++ "Could you provide more specific information about your interests?"),
          updated_context := some updated }
      else
        { success := true, agent_name := "topic_scout",
          user_message := some (TopicScoutAgent.formatTopicsForUser llm.topics),
          updated_context := some updated }

/-! ## Research handler capability check (src/agents/research.py) -/

/-- The JSON object read by `ResearchAgent.can_handle_request` from the
classifier reply, with the `.get(...)` defaults of the source. -/
structure ParsedAssessment where
  can_handle : Bool := false
  confidence : ℚ := 0
  missing_info : List String := []
  reasoning : String := "Assessment completed"
  suggested_questions : List String := []
deriving DecidableEq, Repr

/-- `ResearchAgent._fallback_assessment`: keyword heuristic used when the
classifier reply is empty or unparsable. -/
def ResearchAgent.fallbackAssessment (user_input : String) : AgentCapabilityAssessment :=
  let user_lower := pyLower user_input
  let research_keywords := ["paper", "research", "literature", "study", "article",
    "publication", "find", "search"]
  if research_keywords.any (fun k => strContains user_lower k) then
    { can_handle := true, confidence := 7/10,
      reasoning := "Request appears to be about research or finding papers" }
  else
    { can_handle := false, confidence := 2/10,
      reasoning := "Request doesn\x27t appear to be about research or papers" }

/-- `ResearchAgent.can_handle_request`.  `jsonParse` is the external
`json.loads` (returning `none` on `JSONDecodeError`); `chat` is the classifier
call outcome.  A raised exception is caught and mapped to a rejecting
assessment with confidence `0.0`. -/
def ResearchAgent.canHandleRequest (jsonParse : String → Option ParsedAssessment)
    (chat : ChatResult) (user_input : String) : AgentCapabilityAssessment :=
  match chat with
  | .ok response =>
      if !(response == "") then
        match jsonParse (pyStrip response) with
        | some d =>
            { can_handle := d.can_handle, confidence := d.confidence,
              missing_info := d.missing_info, reasoning := d.reasoning,
              suggested_questions := d.suggested_questions }
        | none => ResearchAgent.fallbackAssessment user_input
      else ResearchAgent.fallbackAssessment user_input
  | .err e =>
      { can_handle := false, confidence := 0,
        reasoning := "Error during assessment: " ++ e }

/-! ## Structure handler gating (src/agents/structure.py) -/

/-- `StructureAgent.can_handle_request` (same YES/NO scheme as the topic scout). -/
def StructureAgent.canHandleRequest (chat : ChatResult) : AgentCapabilityAssessment :=
  match chat with
  | .ok out =>
      if !(out == "") && strContains (pyUpper out) "YES" then
        { can_handle := true, confidence := 9/10, missing_info := [],
          reasoning := "Outline-related", suggested_questions := [] }
      else if !(out == "") && strContains (pyUpper out) "NO" then
        { can_handle := false, confidence := 9/10, missing_info := [],
          reasoning := pyStrip out, suggested_questions := [] }
      else
        { can_handle := true, confidence := 7/10, missing_info := [],
          reasoning := "Assuming outline-related", suggested_questions := [] }
  | .err e =>
      { can_handle := true, confidence := 6/10, missing_info := [],
        reasoning := e, suggested_questions := [] }

/-- `StructureAgent._has_enough_info`: a working title must be present. -/
def StructureAgent.hasEnoughInfo (ctx : UserContext) : Bool :=
  optStr ctx.working_title

/-- `StructureAgent._get_next_question`. -/
def StructureAgent.getNextQuestion (ctx : UserContext) : String :=
  if !optStr ctx.working_title then "What is your working title or precise topic?"
  else ""

/-! ## Writing handler gating (src/agents/writing.py) -/

/-- `WritingAssistantAgent.can_handle_request`. -/
def WritingAssistantAgent.canHandleRequest (chat : ChatResult) : AgentCapabilityAssessment :=
  match chat with
  | .ok out =>
      if !(out == "") && strContains (pyUpper out) "YES" then
        { can_handle := true, confidence := 9/10, missing_info := [],
          reasoning := "Drafting/editing", suggested_questions := [] }
      else if !(out == "") && strContains (pyUpper out) "NO" then
        { can_handle := false, confidence := 9/10, missing_info := [],
          reasoning := pyStrip out, suggested_questions := [] }
      else
        { can_handle := true, confidence := 7/10, missing_info := [],
          reasoning := "Assuming drafting/editing", suggested_questions := [] }
  | .err e =>
      { can_handle := true, confidence := 6/10, missing_info := [],
        reasoning := e, suggested_questions := [] }

/-- `WritingAssistantAgent._synthesize_outline_from_target`: builds a minimal
placeholder outline around the addressed chapter/section. -/
def WritingAssistantAgent.synthesizeOutline (ch_idx : Nat) (sec_idx : Option Nat)
    (title : Option String) : ThesisOutline :=
  let chapters := (List.range ch_idx).map (fun i =>
    OutlineChapter.mk ("Chapter " ++ toString (i + 1)) [])
  match sec_idx with
  | some s =>
      let secs := (List.range s).map (fun j =>
        OutlineSection.mk ("Section " ++ toString ch_idx ++ "." ++ toString (j + 1)))
      let secs := match title with
        | some t => secs.set (s - 1) (OutlineSection.mk t)
        | none => secs
      { title := "Thesis",
        chapters := chapters.set (ch_idx - 1) (OutlineChapter.mk ("Chapter " ++ toString ch_idx) secs) }
  | none =>
      let chapters := match title with
        | some t => chapters.set (ch_idx - 1) (OutlineChapter.mk t [])
        | none => chapters
      { title := "Thesis", chapters := chapters }

/-- External collaborators of one `WritingAssistantAgent.process_request` run:
the style-command matcher, the regex extractors, the stored outline on disk
(already converted by `_section_to_thesis_outline`), the outline menu
formatter and the drafted paragraph together with its save path.  The modelled
turns carry no file uploads (`options["files"]` empty), so the upload branch
is not reached. -/
structure WritingEnv where
  styleCmd : String → Option AgentResponse
  seeds : String → String
  createOutlineCmd : String → Bool
  looseTarget : String → Option (Nat × Option Nat × Option String)
  targetIn : String → ThesisOutline → Option (Nat × Option Nat × Option String)
  diskOutline : Option ThesisOutline := none
  menu : ThesisOutline → String
  draftUi : String

/-- Continuation of `WritingAssistantAgent.process_request` once an outline is
available (steps 2.1 onwards): resolve the target section, then require seed
content, then draft. -/
def WritingAssistantAgent.processWithOutline (env : WritingEnv) (user_input : String)
    (seeds : String) (ctx : UserContext) (outline : ThesisOutline) : AgentResponse :=
  match env.targetIn user_input outline with
  | none =>
      let q := "Für welchen Abschnitt soll ich schreiben? Antworte z. B. mit *Kapitel 3.2* oder einem Abschnittstitel.\n"
        ++ env.menu outline
      let instr : AgentInstruction :=
        { requesting_agent := "writing_assistant", action_type := .askUser,
          target := "user", message := q,
          reasoning := "Need a concrete chapter/section to place the paragraph." }
      { success := false, agent_name := "writing_assistant",
        instructions := some [instr],
        user_message := some q, updated_context := some ctx }
  | some _ =>
      if seeds == "" then
        let q := "Sende bitte Stichwörter oder einen Grobentwurf für den Absatz, z. B.: `Keywords: federated learning, radiology, privacy`."
        let instr : AgentInstruction :=
          { requesting_agent := "writing_assistant", action_type := .askUser,
            target := "user", message := q,
            reasoning := "Need seeds (keywords/draft) to write a paragraph." }
        { success := false, agent_name := "writing_assistant",
          instructions := some [instr],
          user_message := some q, updated_context := some ctx }
      else
        { success := true, agent_name := "writing_assistant",
          user_message := some env.draftUi, updated_context := some ctx }

/-- `WritingAssistantAgent.process_request` (gating slice): style commands,
seed extraction, outline resolution (context, disk, create-outline redirect,
loose target synthesis), target resolution and the seed gate, in source
order. -/
def WritingAssistantAgent.processRequest (env : WritingEnv) (user_input : String)
    (context : UserContext) : AgentResponse :=
  match env.styleCmd user_input with
  | some r => r
  | none =>
      let seeds := env.seeds user_input
      let outline0 : Option ThesisOutline :=
        match context.latest_outline with
        | some o => some o
        | none => env.diskOutline
      let ctx0 := { context with latest_outline := outline0 }
      match outline0 with
      | none =>
          if env.createOutlineCmd user_input then
            let ctx1 := { ctx0 with pending_agent := some "structure_agent",
                                    pending_request := some "create outline" }
            let msg := "Alles klar — ich leite zur Outline-Erstellung weiter. Bitte gib mir noch deinen Arbeitstitel/Thema."
            let instr : AgentInstruction :=
              { requesting_agent := "writing_assistant", action_type := .askUser,
                target := "user", message := msg,
                reasoning := "User asked to create outline; route to structure_agent next." }
            { success := false, agent_name := "writing_assistant",
              instructions := some [instr],
              user_message := some msg, updated_context := some ctx1 }
          else
            match env.looseTarget user_input with
            | some (ch, sec, title) =>
                let outline := WritingAssistantAgent.synthesizeOutline ch sec title
                WritingAssistantAgent.processWithOutline env user_input seeds
                  { ctx0 with latest_outline := some outline } outline
            | none =>
                let q := "Ich brauche ein Ziel in deiner Arbeit. Nenne z. B. **\x274.1 Titel, keywords: …\x27** oder erstelle zuerst eine Gliederung mit *create outline: <Thema>*."
                let instr : AgentInstruction :=
                  { requesting_agent := "writing_assistant", action_type := .askUser,
                    target := "user", message := q,
                    reasoning := "No outline and no loose chapter/section found." }
                { success := false, agent_name := "writing_assistant",
                  instructions := some [instr],
                  user_message := some q, updated_context := some ctx0 }
      | some outline =>
          WritingAssistantAgent.processWithOutline env user_input seeds ctx0 outline

/-! ## Orchestrator (src/orchestrator/orchestrator.py) -/

/-- The valid one-word answers `_make_routing_decision` accepts from the
routing classifier. -/
def validChoices : List String :=
  ["TOPIC_SCOUT", "RESEARCH_AGENT", "STRUCTURE_AGENT", "WRITING_ASSISTANT",
   "REVIEWER_AGENT", "END"]

/-- The `current_user_input` extraction at the top of
`_make_routing_decision`: the last message if human, else the second-to-last
if human, else `""`. -/
def currentUserInput (messages : List Msg) : String :=
  match messages.getLast? with
  | none => ""
  | some last =>
      if last.isHuman then last.content
      else if messages.length > 1 then
        match messages.dropLast.getLast? with
        | some prev => if prev.isHuman then prev.content else ""
        | none => ""
      else ""

/-- The enriched input built for a pending agent. -/
def enrichText (pending_request current_user_input : String) : String :=
  "Original request: " ++ pending_request
    ++ "\nUser\x27s additional info: " ++ current_user_input

/-- `Orchestrator._make_routing_decision`.  `chat` is the outcome of the
routing-classifier call (unused on the pending-agent path, which returns
before the call).  Returns the decision and the mutated context.  Both the
invalid-answer fall-through and the `except` clause return `"topic_scout"`. -/
def Orchestrator.makeRoutingDecision (chat : ChatResult) (messages : List Msg)
    (context : UserContext) : String × UserContext :=
  let current_user_input := currentUserInput messages
  if optStr context.pending_agent then
    let enriched := enrichText (context.pending_request.getD "") current_user_input
    let c1 :=
      if optStr context.pending_request then
        { context with enriched_input := some enriched }
      else context
    (c1.pending_agent.getD "", { c1 with pending_agent := none, pending_request := none })
  else
    match chat with
    | .err _ => ("topic_scout", context)
    | .ok response =>
        if !(response == "") then
          let decision := pyUpper (pyStrip response)
          if validChoices.contains decision then
            (if decision == "END" then "END" else pyLower decision, context)
          else ("topic_scout", context)
        else ("topic_scout", context)

/-- `Orchestrator._supervisor_node`: ends the turn when an agent just asked a
question (pending agent set and more than one message), otherwise delegates
to `_make_routing_decision`. -/
def Orchestrator.supervisorNode (chat : ChatResult) (messages : List Msg)
    (context : UserContext) : String × UserContext :=
  if optStr context.pending_agent && messages.length > 1 then
    ("END", context)
  else
    Orchestrator.makeRoutingDecision chat messages context

/-- `Orchestrator._get_input_to_process`: consume `enriched_input` when set,
otherwise pass the last message through. -/
def Orchestrator.getInputToProcess (last_message : String) (context : UserContext) :
    String × UserContext :=
  if optStr context.enriched_input then
    (context.enriched_input.getD "", { context with enriched_input := none })
  else (last_message, context)

/-- `Orchestrator._handle_agent_response` (the MERGE step): returns the
emitted assistant-message text and the merged context. -/
def Orchestrator.handleAgentResponse (response : AgentResponse) (context : UserContext)
    (agent_name : String) (original_input : String) : String × UserContext :=
  if !response.success && instrTruthy response.instructions then
    let base := { context with pending_agent := some agent_name,
                               pending_request := some original_input }
    let merged :=
      match response.updated_context with
      | some uc => { uc with pending_agent := some agent_name,
                             pending_request := some original_input }
      | none => base
    (orDefault response.user_message "I need more information.", merged)
  else
    let base := { context with pending_agent := none, pending_request := none }
    let merged :=
      match response.updated_context with
      | some uc => { uc with pending_agent := none, pending_request := none }
      | none => base
    (orDefault response.user_message (pyTitle agent_name ++ " completed the task."),
     merged)

/-- `Orchestrator._topic_scout_node`: read the last message, consume any
enriched input, run `TopicScoutAgent.process_request`, and merge the
response. -/
def Orchestrator.topicScoutNode (exc : Option String) (llm : TopicScoutLLM)
    (messages : List Msg) (context : UserContext) : String × UserContext :=
  let last_message := (messages.getLast?.map Msg.content).getD ""
  let (input_to_process, ctx1) := Orchestrator.getInputToProcess last_message context
  let response := TopicScoutAgent.processRequest exc llm input_to_process ctx1
  Orchestrator.handleAgentResponse response ctx1 "topic_scout" input_to_process

/-- Outcome of one `Orchestrator.run` graph invocation: either an exception
escaped (`raised`) or the graph completed with a final message list. -/
inductive RunOutcome
  | raised (e : String)
  | completed (messages : List Msg)
deriving DecidableEq, Repr

/-- The response-extraction and error handling of `Orchestrator.run` (the turn
entry point): every outcome is mapped to display text. -/
def Orchestrator.run (outcome : RunOutcome) : String :=
  match outcome with
  | .raised e => "An error occurred: " ++ e
  | .completed msgs =>
      match msgs.getLast? with
      | some m => m.content
      | none => "I couldn\x27t generate a response. Please try again."

/-! ## Specification-level predicates -/

/-- `c2` contains every field of `c1` (and may set additional ones): each
field that is set in `c1` has the same value in `c2`. -/
def contextLE (c1 c2 : UserContext) : Prop :=
  (c1.field.isSome → c2.field = c1.field) ∧
  (c1.interests ≠ [] → c2.interests = c1.interests) ∧
  (c1.background.isSome → c2.background = c1.background) ∧
  (c1.working_title.isSome → c2.working_title = c1.working_title) ∧
  (c1.latest_outline.isSome → c2.latest_outline = c1.latest_outline) ∧
  (c1.pending_agent.isSome → c2.pending_agent = c1.pending_agent) ∧
  (c1.pending_request.isSome → c2.pending_request = c1.pending_request) ∧
  (c1.enriched_input.isSome → c2.enriched_input = c1.enriched_input)

/-- A handler response signalling a clarification request: `success=false`
with a non-empty instructions list containing an `ask_user` instruction. -/
def clarificationSignal (r : AgentResponse) : Prop :=
  r.success = false ∧ ∃ l, r.instructions = some l ∧ l ≠ [] ∧
    ∃ i ∈ l, i.action_type = ActionType.askUser

/-- Every instruction carried by the response is an `ask_user` instruction
(an invariant of all agents in this repository: every `AgentInstruction` they
construct uses `action_type="ask_user"`). -/
def allAskUser (r : AgentResponse) : Prop :=
  ∀ l, r.instructions = some l → ∀ i ∈ l, i.action_type = ActionType.askUser

/-! ## Concrete fixtures used by witnesses and counterexamples -/

/-- The `ask_user` instruction the topic scout emits when the field of study
is missing. -/
def fieldQuestionInstr : AgentInstruction :=
  { requesting_agent := "topic_scout", action_type := .askUser, target := "user",
    message := "What field are you studying? (e.g., Computer Science, Biology, Psychology, etc.)",
    reasoning := "Need this information to generate relevant topics" }

/-- A context with only field and interests set. -/
def ctxSmall : UserContext := { field := some "Computer Science", interests := ["AI"] }

/-- The same context with two additional unrelated fields set. -/
def ctxBig : UserContext :=
  { field := some "Computer Science", interests := ["AI"],
    background := some "MSc student", working_title := some "AI in Radiology" }

/-- A successful handler response (turn complete). -/
def successTopicsResp : AgentResponse :=
  { success := true, agent_name := "topic_scout", user_message := some "done" }

/-- A session context in the awaiting-clarification state left by the topic
scout on the previous turn. -/
def resumptionCtx : UserContext :=
  { pending_agent := some "topic_scout", pending_request := some "help me find a topic" }

/-- Oracle outcomes for a resumption turn on which the capability classifier
reverses its earlier acceptance. -/
def llmReverse : TopicScoutLLM :=
  { extracted := none, assess := .ok "NO - this is about writing content", topics := [] }

/-- Oracle outcomes for a resumption turn on which the capability classifier
accepts again. -/
def llmAccept : TopicScoutLLM :=
  { extracted := none, assess := .ok "YES", topics := [] }

/-- A concrete writing-agent environment: no style command, the whole input as
seed text, a create-outline command detector, and no recognized targets. -/
def envW : WritingEnv :=
  { styleCmd := fun _ => none, seeds := fun s => s,
    createOutlineCmd := fun s => strContains s "create" && strContains s "outline",
    looseTarget := fun _ => none, targetIn := fun _ _ => none,
    diskOutline := none, menu := fun _ => "", draftUi := "saved" }

/-! ## Supporting lemmas -/

lemma strAppend_ne_left (a b : String) (h : a ≠ "") : a ++ b ≠ "" := by
  obtain ⟨da⟩ := a
  obtain ⟨db⟩ := b
  intro hEq
  apply h
  have h2 : da ++ db = ([] : List Char) := congrArg String.data hEq
  cases da with
  | nil => rfl
  | cons c t => simp at h2

lemma strAppend_ne_right (a b : String) (h : b ≠ "") : a ++ b ≠ "" := by
  obtain ⟨da⟩ := a
  obtain ⟨db⟩ := b
  intro hEq
  apply h
  have h2 : da ++ db = ([] : List Char) := congrArg String.data hEq
  rcases List.append_eq_nil.mp h2 with ⟨-, h4⟩
  exact congrArg String.mk h4

lemma enrichText_ne_empty (r u : String) : enrichText r u ≠ "" := by
  unfold enrichText
  apply strAppend_ne_left
  apply strAppend_ne_left
  apply strAppend_ne_left
  decide

lemma orDefault_ne_empty (o : Option String) (d : String) (hd : d ≠ "") :
    orDefault o d ≠ "" := by
  unfold orDefault
  by_cases h : optStr o = true
  · simp [h]
    simpa [optStr] using h
  · simp [h, hd]

/-! ## C1: resumption routing -/

/-- C1: for every session context with `pending_agent = some H` (non-empty) and
`pending_request` set, the routing decision for the next user message `u` is
`H` regardless of the classifier outcome, the enriched input combining the
stored pending request with `u` is placed in the context, and
`_get_input_to_process` delivers exactly that enriched input to the handler. -/
theorem spec_C1 (chat : ChatResult) (h r u lm : String) (ctx : UserContext)
    (hh : h ≠ "") (hr : r ≠ "")
    (hpa : ctx.pending_agent = some h) (hpr : ctx.pending_request = some r) :
    (Orchestrator.makeRoutingDecision chat [Msg.human u] ctx).1 = h ∧
    (Orchestrator.makeRoutingDecision chat [Msg.human u] ctx).2.enriched_input
      = some (enrichText r u) ∧
    (Orchestrator.getInputToProcess lm
      (Orchestrator.makeRoutingDecision chat [Msg.human u] ctx).2).1 = enrichText r u := by
  have hE := enrichText_ne_empty r u
  simp [Orchestrator.makeRoutingDecision, Orchestrator.getInputToProcess,
    currentUserInput, optStr, hpa, hpr, hh, hr, hE, Msg.isHuman, Msg.content]

theorem spec_C1_witness :
    ("topic_scout" : String) ≠ "" ∧ ("help me find a topic" : String) ≠ "" ∧
    (Orchestrator.makeRoutingDecision (.ok "RESEARCH_AGENT") [Msg.human "Computer Science"]
      { pending_agent := some "topic_scout",
        pending_request := some "help me find a topic" }).1 = "topic_scout" := by
  refine ⟨by decide, by decide, ?_⟩
  exact (spec_C1 (.ok "RESEARCH_AGENT") "topic_scout" "help me find a topic"
    "Computer Science" "" _ (by decide) (by decide) rfl rfl).1

/-! ## C2: resumption skips only handler selection, not ASSESS/GATE -/

/-- C2 counterexample: on a concrete resumption turn
(`pending_agent = "topic_scout"`, user reply `"Computer Science"`), the
supervisor routes back to the topic scout, but the turn outcome depends on the
handler-internal ASSESS classifier: when the capability check answers NO the
turn emits the rejection message, and its reply differs from the reply under a
YES answer — so ASSESS is re-run on the resumption turn, contrary to the
claim. -/
theorem spec_C2_cx :
    (Orchestrator.supervisorNode (.ok "RESEARCH_AGENT") [Msg.human "Computer Science"]
      resumptionCtx).1 = "topic_scout" ∧
    (Orchestrator.topicScoutNode none llmReverse [Msg.human "Computer Science"]
      (Orchestrator.supervisorNode (.ok "RESEARCH_AGENT") [Msg.human "Computer Science"]
        resumptionCtx).2).1
      = "I don\x27t think I can help with this request. NO - this is about writing content" ∧
    (Orchestrator.topicScoutNode none llmReverse [Msg.human "Computer Science"]
      (Orchestrator.supervisorNode (.ok "RESEARCH_AGENT") [Msg.human "Computer Science"]
        resumptionCtx).2).1
      ≠ (Orchestrator.topicScoutNode none llmAccept [Msg.human "Computer Science"]
      (Orchestrator.supervisorNode (.ok "RESEARCH_AGENT") [Msg.human "Computer Science"]
        resumptionCtx).2).1 := by
  decide

/-- C2 (amended): on a resumption turn the supervisor bypasses the routing
classifier and routes to the pending handler, but the resumed handler invokes
its full `process_request` pipeline: the ASSESS capability check runs again
(a NO answer rejects the resumed request) and the GATE sufficiency check runs
again (an insufficient context re-asks the next question). -/
theorem spec_C2 (chat : ChatResult) (u h : String) (ctx : UserContext)
    (hh : h ≠ "") (hpa : ctx.pending_agent = some h) :
    (Orchestrator.supervisorNode chat [Msg.human u] ctx).1 = h ∧
    (∀ llm inp (c : UserContext) s, llm.assess = .ok s → s ≠ "" →
      strContains (pyUpper s) "YES" = false → strContains (pyUpper s) "NO" = true →
      (TopicScoutAgent.processRequest none llm inp c).success = false ∧
      (TopicScoutAgent.processRequest none llm inp c).user_message
        = some ("I don\x27t think I can help with this request. " ++ pyStrip s) ∧
      (TopicScoutAgent.processRequest none llm inp c).instructions = none) ∧
    (∀ llm inp (c : UserContext),
      (TopicScoutAgent.canHandleRequest llm.assess).can_handle = true →
      TopicScoutAgent.hasEnoughInfo
        (TopicScoutAgent.updateContextFromInput llm.extracted c) = false →
      (TopicScoutAgent.processRequest none llm inp c).user_message
        = some (TopicScoutAgent.getNextQuestion
            (TopicScoutAgent.updateContextFromInput llm.extracted c))) := by
  refine ⟨?_, ?_, ?_⟩
  · unfold Orchestrator.supervisorNode Orchestrator.makeRoutingDecision
    simp [hpa, optStr, hh]
    by_cases hpr : ctx.pending_request.getD "" = "" <;> simp [hpr, hpa]
  · intro llm inp c s hs hne hYes hNo
    have hassess : (TopicScoutAgent.canHandleRequest llm.assess).can_handle = false := by
      rw [hs]
      unfold TopicScoutAgent.canHandleRequest
      simp [hne, hYes, hNo]
    have hreason : (TopicScoutAgent.canHandleRequest llm.assess).reasoning = pyStrip s := by
      rw [hs]
      unfold TopicScoutAgent.canHandleRequest
      simp [hne, hYes, hNo]
    unfold TopicScoutAgent.processRequest
    simp [hassess, hreason]
  · intro llm inp c h1 h2
    unfold TopicScoutAgent.processRequest
    simp [h1, h2]

theorem spec_C2_witness :
    ("topic_scout" : String) ≠ "" ∧
    resumptionCtx.pending_agent = some "topic_scout" ∧
    (Orchestrator.supervisorNode (.ok "RESEARCH_AGENT") [Msg.human "Computer Science"]
      resumptionCtx).1 = "topic_scout" := by
  refine ⟨by decide, rfl, ?_⟩
  exact (spec_C2 (.ok "RESEARCH_AGENT") "Computer Science" "topic_scout" resumptionCtx
    (by decide) rfl).1

/-! ## C3: pending markers iff clarification request -/

/-- C3: after the MERGE step, `pending_agent` is non-empty exactly when the
handled response signalled a clarification request (`success=false` with a
non-empty instructions list containing an `ask_user` instruction), provided
the response carries only `ask_user` instructions — which the final conjunct
establishes as an invariant of every topic-scout response; in particular a
`success=true` response always clears `pending_agent` and `pending_request`. -/
theorem spec_C3 (r : AgentResponse) (ctx : UserContext) (name input : String)
    (hname : name ≠ "") (hAU : allAskUser r) :
    ((optStr (Orchestrator.handleAgentResponse r ctx name input).2.pending_agent = true)
      ↔ clarificationSignal r) ∧
    (r.success = true →
      (Orchestrator.handleAgentResponse r ctx name input).2.pending_agent = none ∧
      (Orchestrator.handleAgentResponse r ctx name input).2.pending_request = none) ∧
    (∀ exc llm inp c, allAskUser (TopicScoutAgent.processRequest exc llm inp c)) := by
  refine ⟨?_, ?_, ?_⟩
  · unfold Orchestrator.handleAgentResponse
    by_cases hs : r.success
    · simp [hs, clarificationSignal]
      cases r.updated_context <;> simp [optStr]
    · cases hi : r.instructions with
      | none => simp [hs, hi, instrTruthy, clarificationSignal]
                cases r.updated_context <;> simp [optStr]
      | some l =>
          cases l with
          | nil => simp [hs, hi, instrTruthy, clarificationSignal]
                   cases r.updated_context <;> simp [optStr]
          | cons a t =>
              simp [hs, hi, instrTruthy]
              constructor
              · intro _
                exact ⟨Bool.eq_false_iff.mpr hs, a :: t, hi, by simp,
                  a, by simp, hAU _ hi a (by simp)⟩
              · intro _
                cases r.updated_context <;> simp [optStr, hname]
  · intro hs
    unfold Orchestrator.handleAgentResponse
    simp [hs]
    cases r.updated_context <;> simp
  · intro exc llm inp c
    unfold allAskUser TopicScoutAgent.processRequest
    cases exc with
    | some e => simp
    | none =>
        by_cases h1 : (TopicScoutAgent.canHandleRequest llm.assess).can_handle <;>
          by_cases h2 : TopicScoutAgent.hasEnoughInfo
            (TopicScoutAgent.updateContextFromInput llm.extracted c) <;>
          by_cases h3 : llm.topics.isEmpty <;>
          simp [h1, h2, h3]

theorem spec_C3_witness :
    allAskUser (TopicScoutAgent.processRequest none
      { extracted := none, assess := .ok "YES", topics := [] } "help me find a topic" {}) ∧
    optStr (Orchestrator.handleAgentResponse
      (TopicScoutAgent.processRequest none
        { extracted := none, assess := .ok "YES", topics := [] } "help me find a topic" {})
      {} "topic_scout" "help me find a topic").2.pending_agent = true := by
  have hAU : allAskUser (TopicScoutAgent.processRequest none
      { extracted := none, assess := .ok "YES", topics := [] } "help me find a topic" {}) :=
    (spec_C3 { success := true, agent_name := "x" } {} "topic_scout" "y" (by decide)
      (by intro l hl; simp at hl)).2.2 none _ _ _
  refine ⟨hAU, ?_⟩
  refine ((spec_C3 _ {} "topic_scout" "help me find a topic" (by decide) hAU).1).mpr ?_
  refine ⟨by decide, [fieldQuestionInstr], by decide, by decide, fieldQuestionInstr,
    by simp, rfl⟩

/-! ## C4: the SELECT fallback is the constant topic_scout -/

/-- C4 counterexample: with the classifier unavailable (call raised) or
returning an invalid answer, a message full of research keywords
(`"find papers about machine learning"`) and one full of outline keywords
(`"create a thesis outline"`) are both routed to `topic_scout`: there is no
keyword-to-handler fallback table, and `research_agent` / `structure_agent`
are not reachable without the classifier. -/
theorem spec_C4_cx :
    (Orchestrator.makeRoutingDecision (.err "connection timeout")
      [Msg.human "find papers about machine learning"] {}).1 = "topic_scout" ∧
    (Orchestrator.makeRoutingDecision (.err "connection timeout")
      [Msg.human "create a thesis outline"] {}).1 = "topic_scout" ∧
    (Orchestrator.makeRoutingDecision (.ok "maybe the research one?")
      [Msg.human "find papers about machine learning"] {}).1 = "topic_scout" ∧
    ("topic_scout" : String) ≠ "research_agent" ∧
    ("topic_scout" : String) ≠ "structure_agent" := by
  refine ⟨rfl, rfl, ?_, by decide, by decide⟩
  decide

/-- C4 (amended): in state SELECT (no pending agent), whenever the classifier
call fails or its answer is not one of the known handler names or the end
sentinel, the routing decision is the constant fallback `"topic_scout"`,
independent of the message content. -/
theorem spec_C4 (chat : ChatResult) (messages : List Msg) (ctx : UserContext)
    (hp : optStr ctx.pending_agent = false)
    (hinvalid : ∀ s, chat = .ok s → validChoices.contains (pyUpper (pyStrip s)) = false) :
    (Orchestrator.makeRoutingDecision chat messages ctx).1 = "topic_scout" := by
  unfold Orchestrator.makeRoutingDecision
  cases chat with
  | err e => simp [hp]
  | ok s =>
      by_cases hs : s = ""
      · simp [hp, hs]
      · have hmem : pyUpper (pyStrip s) ∉ validChoices := by
          have := hinvalid s rfl
          simpa using this
        simp [hp, hs, hmem]

theorem spec_C4_witness :
    optStr (UserContext.pending_agent {}) = false ∧
    (Orchestrator.makeRoutingDecision (.ok "maybe the research one?")
      [Msg.human "find papers about machine learning"] {}).1 = "topic_scout" := by
  refine ⟨by decide, ?_⟩
  apply spec_C4 (.ok "maybe the research one?")
    [Msg.human "find papers about machine learning"] {}
  · decide
  · intro s hs
    cases hs
    decide

/-! ## C5: turn termination after a handler node -/

/-- C5 counterexample: after a handler node completes with a `success=true`
response the pending marker is cleared, and the supervisor — re-invoked with
the classifier answering `"RESEARCH_AGENT"` — dispatches a second handler
instead of transitioning to terminal, contrary to the claim that the turn
ends for every classifier output. -/
theorem spec_C5_cx :
    (Orchestrator.handleAgentResponse successTopicsResp {} "topic_scout" "hi").2.pending_agent
      = none ∧
    (Orchestrator.supervisorNode (.ok "RESEARCH_AGENT") [Msg.human "hi", Msg.ai "done"]
      (Orchestrator.handleAgentResponse successTopicsResp {} "topic_scout" "hi").2).1
      = "research_agent" ∧
    ("research_agent" : String) ≠ "END" := by
  decide

/-- C5 (amended): after a handler node completes, the supervisor transitions
to terminal for every classifier output only when the handler asked a
clarification (pending agent set, more than one message); after a
`success=true` response the supervisor re-consults the classifier and
dispatches whatever valid handler name it returns, so a second handler can
run within the same turn. -/
theorem spec_C5 (chat : ChatResult) (messages : List Msg) (ctx : UserContext) :
    (optStr ctx.pending_agent = true → messages.length > 1 →
      Orchestrator.supervisorNode chat messages ctx = ("END", ctx)) ∧
    (optStr ctx.pending_agent = false →
      (Orchestrator.supervisorNode (.ok "RESEARCH_AGENT") messages ctx).1
        = "research_agent") := by
  constructor
  · intro h1 h2
    unfold Orchestrator.supervisorNode
    simp [h1, h2]
  · intro h1
    unfold Orchestrator.supervisorNode Orchestrator.makeRoutingDecision
    have e1 : pyUpper (pyStrip "RESEARCH_AGENT") = "RESEARCH_AGENT" := by decide
    have e2 : ("RESEARCH_AGENT" : String) ∈ validChoices := by decide
    have e3 : (("RESEARCH_AGENT" : String) == "END") = false := by decide
    have e4 : pyLower "RESEARCH_AGENT" = "research_agent" := by decide
    simp [h1, e1, e2, e3, e4]

theorem spec_C5_witness :
    optStr (UserContext.pending_agent
      { pending_agent := some "topic_scout", pending_request := some "x" }) = true ∧
    Orchestrator.supervisorNode (.ok "RESEARCH_AGENT") [Msg.human "hi", Msg.ai "q"]
      { pending_agent := some "topic_scout", pending_request := some "x" }
      = ("END", { pending_agent := some "topic_scout", pending_request := some "x" }) := by
  refine ⟨by decide, ?_⟩
  exact (spec_C5 (.ok "RESEARCH_AGENT") [Msg.human "hi", Msg.ai "q"]
    { pending_agent := some "topic_scout", pending_request := some "x" }).1
    (by decide) (by decide)

/-! ## C6: ASSESS failure handling -/

/-- C6 counterexample: when the capability-check call raises, the research
agent returns `can_handle=false` with confidence `0.0` — a rejection, not an
accept with low confidence — contradicting the claim for that handler. -/
theorem spec_C6_cx :
    (ResearchAgent.canHandleRequest (fun _ => none) (.err "request timeout")
      "find papers on machine learning").can_handle = false ∧
    (ResearchAgent.canHandleRequest (fun _ => none) (.err "request timeout")
      "find papers on machine learning").confidence = 0 := by
  exact ⟨rfl, rfl⟩

/-- C6 (amended): the topic scout, structure and writing handlers accept with
reduced confidence `0.6` when the capability-check call raises and `0.7` when
the reply is unusable (neither YES nor NO), and the failure is absorbed, not
re-raised; the research agent however answers a raised capability-check call
with `can_handle=false` and confidence `0.0`. -/
theorem spec_C6 :
    (∀ e, (TopicScoutAgent.canHandleRequest (.err e)).can_handle = true ∧
          (TopicScoutAgent.canHandleRequest (.err e)).confidence = 6/10) ∧
    (∀ e, (StructureAgent.canHandleRequest (.err e)).can_handle = true ∧
          (StructureAgent.canHandleRequest (.err e)).confidence = 6/10) ∧
    (∀ e, (WritingAssistantAgent.canHandleRequest (.err e)).can_handle = true ∧
          (WritingAssistantAgent.canHandleRequest (.err e)).confidence = 6/10) ∧
    (∀ s, strContains (pyUpper s) "YES" = false → strContains (pyUpper s) "NO" = false →
          (TopicScoutAgent.canHandleRequest (.ok s)).can_handle = true ∧
          (TopicScoutAgent.canHandleRequest (.ok s)).confidence = 7/10) ∧
    (∀ jp e inp, (ResearchAgent.canHandleRequest jp (.err e) inp).can_handle = false ∧
                 (ResearchAgent.canHandleRequest jp (.err e) inp).confidence = 0) := by
  refine ⟨fun e => ⟨rfl, rfl⟩, fun e => ⟨rfl, rfl⟩, fun e => ⟨rfl, rfl⟩, ?_,
    fun jp e inp => ⟨rfl, rfl⟩⟩
  intro s hYes hNo
  unfold TopicScoutAgent.canHandleRequest
  simp [hYes, hNo]

theorem spec_C6_witness :
    strContains (pyUpper "hmm, unclear") "YES" = false ∧
    strContains (pyUpper "hmm, unclear") "NO" = false ∧
    (TopicScoutAgent.canHandleRequest (.ok "hmm, unclear")).can_handle = true ∧
    (TopicScoutAgent.canHandleRequest (.err "boom")).can_handle = true := by
  refine ⟨by decide, by decide, ?_, (spec_C6.1 "boom").1⟩
  exact (spec_C6.2.2.2.1 "hmm, unclear" (by decide) (by decide)).1

/-! ## C7: failures become textual responses -/

/-- C7: a handler body that raises is mapped by the outer handler
`try/except` to a `success=false` response with a non-empty user-facing
message; the MERGE step always emits non-empty text; and the turn entry point
returns display text for every outcome — the raised-exception path, the
empty-transcript path, and the normal last-message path. -/
theorem spec_C7 (e inp : String) (llm : TopicScoutLLM) (ctx : UserContext)
    (resp : AgentResponse) (name orig : String) (ms : List Msg) (m : Msg) :
    (TopicScoutAgent.processRequest (some e) llm inp ctx).success = false ∧
    (TopicScoutAgent.processRequest (some e) llm inp ctx).user_message
      = some ("I encountered an error: " ++ e) ∧
    ("I encountered an error: " ++ e) ≠ "" ∧
    (Orchestrator.handleAgentResponse resp ctx name orig).1 ≠ "" ∧
    Orchestrator.run (.raised e) = "An error occurred: " ++ e ∧
    Orchestrator.run (.completed []) = "I couldn\x27t generate a response. Please try again." ∧
    Orchestrator.run (.completed (ms ++ [m])) = m.content := by
  refine ⟨rfl, rfl, strAppend_ne_left _ _ (by decide), ?_, rfl, rfl, ?_⟩
  · unfold Orchestrator.handleAgentResponse
    by_cases hc : (!resp.success && instrTruthy resp.instructions) = true
    · simp only [hc, if_true]
      exact orDefault_ne_empty _ _ (by decide)
    · rw [if_neg hc]
      exact orDefault_ne_empty _ _ (strAppend_ne_right _ _ (by decide))
  · unfold Orchestrator.run
    simp [List.getLast?_concat]

/-! ## C8: has_enough_info is monotone -/

/-- C8: for the two handlers with a `_has_enough_info` gate over the session
context (topic scout: field and interests; structure: working title), the gate
is monotone: if it holds in a context, it holds in every context containing
all of that context's fields. -/
theorem spec_C8 (c1 c2 : UserContext) (hle : contextLE c1 c2) :
    (TopicScoutAgent.hasEnoughInfo c1 = true → TopicScoutAgent.hasEnoughInfo c2 = true) ∧
    (StructureAgent.hasEnoughInfo c1 = true → StructureAgent.hasEnoughInfo c2 = true) := by
  obtain ⟨hf, hi, -, hw, -, -, -, -⟩ := hle
  constructor
  · intro h1
    unfold TopicScoutAgent.hasEnoughInfo at *
    rw [Bool.and_eq_true] at h1
    obtain ⟨hfield, hint⟩ := h1
    have hfs : c1.field.isSome := by
      cases hc : c1.field with
      | none => rw [hc] at hfield; simp [optStr] at hfield
      | some s => simp
    rw [Bool.and_eq_true, hf hfs]
    refine ⟨hfield, ?_⟩
    have : c1.interests ≠ [] := by
      intro hnil
      rw [hnil] at hint
      simp at hint
    rw [hi this]
    exact hint
  · intro h1
    unfold StructureAgent.hasEnoughInfo at *
    have hws : c1.working_title.isSome := by
      cases hc : c1.working_title with
      | none => rw [hc] at h1; simp [optStr] at h1
      | some s => simp
    rw [hw hws]
    exact h1

theorem spec_C8_witness :
    contextLE ctxSmall ctxBig ∧
    TopicScoutAgent.hasEnoughInfo ctxSmall = true ∧
    TopicScoutAgent.hasEnoughInfo ctxBig = true := by
  have hle : contextLE ctxSmall ctxBig := by
    unfold contextLE ctxSmall ctxBig
    decide
  exact ⟨hle, by decide, (spec_C8 _ _ hle).1 (by decide)⟩

/-! ## C9: one deterministic question in fixed precedence -/

/-- C9: `next_question` is a single question, determined by the missing
fields: the topic scout asks for the field of study whenever it is missing
(before interests) and for interests when only those are missing, returning
the same question for contexts agreeing on those fields; the writing handler
asks for the outline/target location (emitting exactly one `ask_user`
instruction) whenever no outline or target can be resolved — regardless of
the seed content — and asks for seed content only once a target is resolved
and the seeds are empty. -/
theorem spec_C9 :
    (∀ c : UserContext, optStr c.field = false →
      TopicScoutAgent.getNextQuestion c
        = "What field are you studying? (e.g., Computer Science, Biology, Psychology, etc.)") ∧
    (∀ c : UserContext, optStr c.field = true → c.interests = [] →
      TopicScoutAgent.getNextQuestion c
        = "What specific areas within " ++ c.field.getD "" ++ " interest you most?") ∧
    (∀ c cb : UserContext, c.field = cb.field → c.interests = cb.interests →
      TopicScoutAgent.getNextQuestion c = TopicScoutAgent.getNextQuestion cb) ∧
    (∀ env inp (ctx : UserContext), env.styleCmd inp = none → ctx.latest_outline = none →
      env.diskOutline = none → env.createOutlineCmd inp = false → env.looseTarget inp = none →
      ∃ i : AgentInstruction,
        (WritingAssistantAgent.processRequest env inp ctx).instructions = some [i] ∧
        i.action_type = .askUser ∧
        i.message = "Ich brauche ein Ziel in deiner Arbeit. Nenne z. B. **\x274.1 Titel, keywords: …\x27** oder erstelle zuerst eine Gliederung mit *create outline: <Thema>*." ∧
        (WritingAssistantAgent.processRequest env inp ctx).user_message = some i.message) ∧
    (∀ env inp (ctx : UserContext) outline t, env.styleCmd inp = none →
      ctx.latest_outline = some outline → env.targetIn inp outline = some t →
      env.seeds inp = "" →
      ∃ i : AgentInstruction,
        (WritingAssistantAgent.processRequest env inp ctx).instructions = some [i] ∧
        i.action_type = .askUser ∧
        i.message = "Sende bitte Stichwörter oder einen Grobentwurf für den Absatz, z. B.: `Keywords: federated learning, radiology, privacy`." ∧
        (WritingAssistantAgent.processRequest env inp ctx).user_message = some i.message) := by
  refine ⟨?_, ?_, ?_, ?_, ?_⟩
  · intro c hc
    unfold TopicScoutAgent.getNextQuestion
    simp [hc]
  · intro c hc hi
    unfold TopicScoutAgent.getNextQuestion
    simp [hc, hi]
  · intro c cb hf hi
    unfold TopicScoutAgent.getNextQuestion
    rw [hf, hi]
  · intro env inp ctx hstyle houtline hdisk hcmd hloose
    unfold WritingAssistantAgent.processRequest
    rw [hstyle]
    simp only [houtline, hdisk, hcmd, hloose, Bool.false_eq_true, if_false]
    exact ⟨_, rfl, rfl, rfl, rfl⟩
  · intro env inp ctx outline t hstyle houtline htarget hseeds
    unfold WritingAssistantAgent.processRequest WritingAssistantAgent.processWithOutline
    rw [hstyle]
    simp only [houtline, htarget, hseeds]
    simp only [beq_self_eq_true, if_true]
    exact ⟨_, rfl, rfl, rfl, rfl⟩

theorem spec_C9_witness :
    TopicScoutAgent.getNextQuestion {}
      = "What field are you studying? (e.g., Computer Science, Biology, Psychology, etc.)" ∧
    envW.createOutlineCmd "hello" = false ∧
    (WritingAssistantAgent.processRequest envW "hello" {}).user_message
      = some "Ich brauche ein Ziel in deiner Arbeit. Nenne z. B. **\x274.1 Titel, keywords: …\x27** oder erstelle zuerst eine Gliederung mit *create outline: <Thema>*." := by
  refine ⟨spec_C9.1 {} (by decide), by decide, ?_⟩
  obtain ⟨i, h1, h2, h3, h4⟩ := spec_C9.2.2.2.1 envW "hello" {} rfl rfl rfl (by decide) rfl
  rw [h4, h3]

/-! ## C10: MERGE overwrites pending_agent with the invoking handler -/

/-- C10: whenever a handler response has `success=false` with non-empty
instructions, the MERGE step sets `pending_agent` to the invoking handler's
name and `pending_request` to the invoking input — and when the writing
handler redirects an outline request by designating `structure_agent` in its
returned `updated_context`, that designation is overwritten with
`writing_assistant`. -/
theorem spec_C10 :
    (∀ (resp : AgentResponse) (ctx : UserContext) (name inp : String),
      resp.success = false → instrTruthy resp.instructions = true →
      (Orchestrator.handleAgentResponse resp ctx name inp).2.pending_agent = some name ∧
      (Orchestrator.handleAgentResponse resp ctx name inp).2.pending_request = some inp) ∧
    (∀ env inp (ctx : UserContext), env.styleCmd inp = none → ctx.latest_outline = none →
      env.diskOutline = none → env.createOutlineCmd inp = true →
      (∃ uc, (WritingAssistantAgent.processRequest env inp ctx).updated_context = some uc ∧
        uc.pending_agent = some "structure_agent" ∧
        uc.pending_request = some "create outline") ∧
      (WritingAssistantAgent.processRequest env inp ctx).success = false ∧
      instrTruthy (WritingAssistantAgent.processRequest env inp ctx).instructions = true ∧
      (Orchestrator.handleAgentResponse (WritingAssistantAgent.processRequest env inp ctx)
        ctx "writing_assistant" inp).2.pending_agent = some "writing_assistant" ∧
      (Orchestrator.handleAgentResponse (WritingAssistantAgent.processRequest env inp ctx)
        ctx "writing_assistant" inp).2.pending_request = some inp) := by
  have hmain : ∀ (resp : AgentResponse) (ctx : UserContext) (name inp : String),
      resp.success = false → instrTruthy resp.instructions = true →
      (Orchestrator.handleAgentResponse resp ctx name inp).2.pending_agent = some name ∧
      (Orchestrator.handleAgentResponse resp ctx name inp).2.pending_request = some inp := by
    intro resp ctx name inp hs hi
    unfold Orchestrator.handleAgentResponse
    simp [hs, hi]
    cases resp.updated_context <;> simp
  refine ⟨hmain, ?_⟩
  intro env inp ctx hstyle houtline hdisk hcmd
  have hresp : (WritingAssistantAgent.processRequest env inp ctx).success = false ∧
      instrTruthy (WritingAssistantAgent.processRequest env inp ctx).instructions = true ∧
      (∃ uc, (WritingAssistantAgent.processRequest env inp ctx).updated_context = some uc ∧
        uc.pending_agent = some "structure_agent" ∧
        uc.pending_request = some "create outline") := by
    unfold WritingAssistantAgent.processRequest
    rw [hstyle]
    simp [houtline, hdisk, hcmd, instrTruthy]
  obtain ⟨h1, h2, h3⟩ := hresp
  exact ⟨h3, h1, h2, (hmain _ ctx "writing_assistant" inp h1 h2).1,
    (hmain _ ctx "writing_assistant" inp h1 h2).2⟩

theorem spec_C10_witness :
    (WritingAssistantAgent.processRequest envW "create an outline" {}).success = false ∧
    (∃ uc, (WritingAssistantAgent.processRequest envW "create an outline" {}).updated_context
        = some uc ∧ uc.pending_agent = some "structure_agent") ∧
    (Orchestrator.handleAgentResponse
      (WritingAssistantAgent.processRequest envW "create an outline" {})
      {} "writing_assistant" "create an outline").2.pending_agent
      = some "writing_assistant" := by
  have h := spec_C10.2 envW "create an outline" {} rfl rfl rfl (by decide)
  obtain ⟨⟨uc, hu, hp, hq⟩, h1, h2, h3, h4⟩ := h
  exact ⟨h1, ⟨uc, hu, hp⟩, h3⟩

end ThesisMate
